import Mathlib

/-!
Shallow embedding of the metadata-to-schema compiler and provisioner in
`md_to_orm/md_to_orm.py` (OpenEnergyPlatform/metadata_tool), together with
theorems checking the specification's claims against it.

Conventions of the embedding:
* Python dict access `d["k"]` on a possibly-missing key is modelled with
  `Option`: `none` means the key is absent and the access raises `KeyError`.
* `jmespath.search` returning `None` for an absent path is modelled with
  `Option` as well; iterating or membership-testing that `None` raises
  `TypeError`, modelled by the dedicated error constructors below.
* Exceptions are modelled by `Except PyError`; the distinct `MetadataError`
  messages of the source become distinct constructors carrying the same data
  the source attaches to the exception.
* The live database engine is modelled by an `Engine` record of response
  functions: each creation statement either succeeds, raises a
  `ProgrammingError` with a message, or raises some other exception.
-/

namespace MdToOrm

/-- Resolved column types. Geometry types are singled out because
`create_tables` checks `isinstance(column.type, Geometry)` to decide whether
the POSTGIS extension is needed. -/
inductive ColType where
  | geometry
  | other (tname : String)
deriving DecidableEq

/-- The value of `fk["reference"]` in a metadata document: a target resource
name and a list of target field names. -/
structure Reference where
  resource : String
  fields : List String
deriving DecidableEq

/-- One entry of `schema.foreignKeys` in a metadata document. -/
structure ForeignKeySpec where
  fields : List String
  reference : Reference
deriving DecidableEq

/-- One entry of `schema.fields` in a metadata document. The outer `Option`
on `description` records whether the key is present at all (absence makes
`field["description"]` raise `KeyError`); the inner `Option` is the JSON
value, which may be `null`. -/
structure FieldSpec where
  name : String
  type : String
  description : Option (Option String)
deriving DecidableEq

/-- One entry of `resources` in a metadata document. The `Option` wrappers
record whether `jmespath.search` finds the sub-path at all. -/
structure ResourceSpec where
  name : String
  fields : Option (List FieldSpec)
  primaryKey : Option (List String)
  foreignKeys : Option (List ForeignKeySpec)
deriving DecidableEq

/-- A parsed metadata JSON document, as consumed by
`create_tables_from_metadata_file`. -/
structure MetadataDoc where
  resources : Option (List ResourceSpec)
deriving DecidableEq

/-- Exceptions observable from the embedded code. The two `MetadataError`
messages of the source are split into two constructors carrying the same
arguments the source passes to the exception. -/
inductive PyError where
  | metadataBadName (resourceName : String)
  | metadataUnknownType (field : FieldSpec) (typeName : String) (docFile : String)
  | keyError (key : String)
  | typeErrorIterNone
  | typeErrorArgNone
  | indexError
  | dbProgrammingError (msg : String)
  | dbOtherError (msg : String)
deriving DecidableEq

/-- A compiled column, the embedding of the `sa.Column` objects built inside
`create_tables_from_metadata_file`. -/
structure Column where
  name : String
  type : ColType
  foreignKeyRef : Option String
  isPrimaryKey : Bool
  comment : Option String
deriving DecidableEq

/-- A compiled table, the embedding of the `sa.Table` objects returned by
`create_tables_from_metadata_file`. -/
structure Table where
  schema : String
  name : String
  columns : List Column
deriving DecidableEq

/-- The type lookup table `TYPES` imported from `postgresql_types`. Its
contents are configuration data outside the compiler core, so the compiler is
parametrised over it. -/
abbrev TypeEnv := List (String × ColType)

/-- The dict lookup `TYPES[field["type"]]`. -/
def lookupType (types : TypeEnv) (tname : String) : Option ColType :=
  types.lookup tname

/-- Splitting a character sequence at every dot, the semantics of the Python
call `name.split(".")`: the result always has one more segment than there are
dots, so the empty string yields one empty segment. -/
def splitOnDot : List Char → List (List Char)
  | [] => [[]]
  | c :: rest =>
    if c = '.' then [] :: splitOnDot rest
    else
      match splitOnDot rest with
      | [] => [[c]]
      | seg :: segs => (c :: seg) :: segs

/-- The Python expression `name.split(".")` on strings. -/
def splitDot (s : String) : List String :=
  (splitOnDot s.toList).map (fun cs => String.mk cs)

/-- Resource name handling of `create_tables_from_metadata_file` lines
108-116: split the name on a dot; one segment means schema `"public"`, two
segments mean `(schema, table)`, anything else raises
`MetadataError("Cannot read table name (and schema)", table["name"])`. -/
def parseSchemaTable (name : String) : Except PyError (String × String) :=
  match splitDot name with
  | [t] => .ok ("public", t)
  | [s, t] => .ok (s, t)
  | _ => .error (.metadataBadName name)

/-- The dict comprehension building `foreign_keys`: each entry contributes
the pair `(fk["fields"][0], fk["reference"])`; an empty `fields` list makes
the indexing raise `IndexError`. -/
def buildForeignKeyMap : List ForeignKeySpec → Except PyError (List (String × Reference))
  | [] => .ok []
  | fk :: rest =>
    match fk.fields with
    | [] => .error .indexError
    | key :: _ =>
      match buildForeignKeyMap rest with
      | .error e => .error e
      | .ok m => .ok ((key, fk.reference) :: m)

/-- Lookup in the `foreign_keys` dict. Later entries of the comprehension
override earlier ones with the same key, as in a Python dict, so a match
found further down the entry list wins. -/
def dictGet (m : List (String × Reference)) (k : String) : Option Reference :=
  match m with
  | [] => none
  | p :: rest =>
    match dictGet rest k with
    | some r => some r
    | none => if p.1 = k then some p.2 else none

/-- The loop body over `schema.fields[*]`, lines 128-156, with the source's
evaluation order: type lookup first (raising
`MetadataError("Unknown column type", field, field["type"], metadata_file)`
on a miss), then the foreign-key membership test, then - inside the
foreign-key branch - the reference string `resource.fields[0]`, then the
primary-key membership test (a `TypeError` when `primaryKey` was absent),
then the `field["description"]` access (a `KeyError` when absent). -/
def compileField (types : TypeEnv) (docFile : String)
    (primaryKeys : Option (List String)) (foreignKeys : List (String × Reference))
    (field : FieldSpec) : Except PyError Column :=
  match lookupType types field.type with
  | none => .error (.metadataUnknownType field field.type docFile)
  | some ty =>
    match dictGet foreignKeys field.name with
    | some ref =>
      match ref.fields with
      | [] => .error .indexError
      | refField :: _ =>
        match primaryKeys with
        | none => .error .typeErrorArgNone
        | some pks =>
          match field.description with
          | none => .error (.keyError "description")
          | some d =>
            .ok { name := field.name, type := ty,
                  foreignKeyRef := some (ref.resource ++ "." ++ refField),
                  isPrimaryKey := decide (field.name ∈ pks), comment := d }
    | none =>
      match primaryKeys with
      | none => .error .typeErrorArgNone
      | some pks =>
        match field.description with
        | none => .error (.keyError "description")
        | some d =>
          .ok { name := field.name, type := ty, foreignKeyRef := none,
                isPrimaryKey := decide (field.name ∈ pks), comment := d }

/-- Folding `compileField` over the field list, stopping at the first
exception, as the Python `for` loop does. -/
def compileFields (types : TypeEnv) (docFile : String)
    (primaryKeys : Option (List String)) (foreignKeys : List (String × Reference)) :
    List FieldSpec → Except PyError (List Column)
  | [] => .ok []
  | f :: rest =>
    match compileField types docFile primaryKeys foreignKeys f with
    | .error e => .error e
    | .ok col =>
      match compileFields types docFile primaryKeys foreignKeys rest with
      | .error e => .error e
      | .ok cols => .ok (col :: cols)

/-- One iteration of the resource loop of `create_tables_from_metadata_file`:
name parsing, the `primaryKey` projection (which may be `None`), the
`foreignKeys` dict comprehension (iterating `None` raises `TypeError`), the
`fields` loop (likewise), and the final `sa.Table` construction. -/
def compileResource (types : TypeEnv) (docFile : String) (r : ResourceSpec) :
    Except PyError Table :=
  match parseSchemaTable r.name with
  | .error e => .error e
  | .ok (schema, tableName) =>
    match r.foreignKeys with
    | none => .error .typeErrorIterNone
    | some fkList =>
      match buildForeignKeyMap fkList with
      | .error e => .error e
      | .ok fks =>
        match r.fields with
        | none => .error .typeErrorIterNone
        | some fieldList =>
          match compileFields types docFile r.primaryKey fks fieldList with
          | .error e => .error e
          | .ok cols => .ok { schema := schema, name := tableName, columns := cols }

/-- The resource loop, stopping at the first exception. -/
def compileResources (types : TypeEnv) (docFile : String) :
    List ResourceSpec → Except PyError (List Table)
  | [] => .ok []
  | r :: rest =>
    match compileResource types docFile r with
    | .error e => .error e
    | .ok t =>
      match compileResources types docFile rest with
      | .error e => .error e
      | .ok ts => .ok (t :: ts)

/-- The embedding of `create_tables_from_metadata_file`: read the `resources`
list (iterating an absent one raises `TypeError`) and compile each resource
in order. -/
def create_tables_from_metadata_file (types : TypeEnv) (docFile : String)
    (doc : MetadataDoc) : Except PyError (List Table) :=
  match doc.resources with
  | none => .error .typeErrorIterNone
  | some rs => compileResources types docFile rs

/-- The length of `table.foreign_keys` of a compiled table: every column
built with a `ForeignKey` argument contributes exactly one element. -/
def foreignKeyCount (t : Table) : Nat :=
  (t.columns.filter (fun c => c.foreignKeyRef.isSome)).length

/-- The key ordering used by `order_tables_by_foreign_keys`. -/
def tableLE (a b : Table) : Prop :=
  foreignKeyCount a ≤ foreignKeyCount b

instance : DecidableRel tableLE :=
  fun a b => Nat.decLe (foreignKeyCount a) (foreignKeyCount b)

instance : IsTotal Table tableLE :=
  ⟨fun a b => Nat.le_total (foreignKeyCount a) (foreignKeyCount b)⟩

instance : IsTrans Table tableLE := ⟨fun _ _ _ h h' => Nat.le_trans h h'⟩

/-- The embedding of `order_tables_by_foreign_keys`:
`sorted(tables, key=lambda x: len(x.foreign_keys))`. Python's `sorted` is a
stable sort by the key, and a stable sort by a total preorder is unique, so
insertion sort with the non-strict key ordering computes the same list. -/
def order_tables_by_foreign_keys (tables : List Table) : List Table :=
  tables.insertionSort tableLE

/-- The outcome of one `execute` or `create` call against the database:
success, a `sqlalchemy.exc.ProgrammingError` carrying a message, or any
other exception. -/
inductive ExecResult where
  | ok
  | programmingError (msg : String)
  | otherError (msg : String)
deriving DecidableEq

/-- The catalog state of the database visible to the provisioner. -/
structure DBState where
  hasPostgis : Bool
  schemas : List String
  tables : List (String × String)
deriving DecidableEq

/-- A creation statement issued to the database. -/
inductive DBCall where
  | createExtension
  | createSchema (name : String)
  | createTable (schema : String) (name : String)
deriving DecidableEq

/-- The database engine as the provisioner sees it: how each creation
statement would respond in a given catalog state. -/
structure Engine where
  createExtensionResult : DBState → ExecResult
  createSchemaResult : String → DBState → ExecResult
  createTableResult : String → String → DBState → ExecResult

/-- The check `db.engine.dialect.has_schema(db.engine, table.schema)`. -/
def hasSchema (st : DBState) (s : String) : Bool :=
  st.schemas.contains s

/-- The check `db.engine.dialect.has_table(db.engine, table.name, table.schema)`. -/
def hasTable (st : DBState) (schema tname : String) : Bool :=
  st.tables.contains (schema, tname)

/-- The check `any(isinstance(column.type, Geometry) for column in table.columns)`. -/
def hasGeometryColumn (t : Table) : Bool :=
  t.columns.any (fun c => decide (c.type = ColType.geometry))

/-- Occurrence of one character sequence inside another, checked at every
suffix. -/
def listContainsSeq (pat : List Char) : List Char → Bool
  | [] => pat.isEmpty
  | c :: rest => List.isPrefixOf pat (c :: rest) || listContainsSeq pat rest

/-- The Python substring test `pat in msg` used on exception messages. -/
def containsSubstr (msg pat : String) : Bool :=
  listContainsSeq pat.toList msg.toList

/-- The embedding of `create_schema`: execute `CreateSchema` and swallow
every `ProgrammingError`, whatever its cause; any other exception
propagates. The issued statement is recorded whether or not it failed. -/
def create_schema (eng : Engine) (st : DBState) (schema : String) :
    List DBCall × Except PyError DBState :=
  match eng.createSchemaResult schema st with
  | .ok => ([.createSchema schema], .ok { st with schemas := schema :: st.schemas })
  | .programmingError _ => ([.createSchema schema], .ok st)
  | .otherError msg => ([.createSchema schema], .error (.dbOtherError msg))

/-- The POSTGIS block at the top of the loop body of `create_tables`: for a
table with a geometry column, `CREATE EXTENSION POSTGIS;` is executed
unconditionally; a `ProgrammingError` whose message mentions
`psycopg2.errors.DuplicateObject` is swallowed, any other `ProgrammingError`
is logged and re-raised, and any other exception propagates uncaught. -/
def ensureExtension (eng : Engine) (st : DBState) (t : Table) :
    List DBCall × Except PyError DBState :=
  if hasGeometryColumn t then
    match eng.createExtensionResult st with
    | .ok => ([.createExtension], .ok { st with hasPostgis := true })
    | .programmingError msg =>
      if containsSubstr msg "psycopg2.errors.DuplicateObject" then
        ([.createExtension], .ok st)
      else
        ([.createExtension], .error (.dbProgrammingError msg))
    | .otherError msg => ([.createExtension], .error (.dbOtherError msg))
  else ([], .ok st)

/-- The schema block of the loop body of `create_tables`: create the schema
only when `has_schema` reports it absent. -/
def ensureSchema (eng : Engine) (st : DBState) (t : Table) :
    List DBCall × Except PyError DBState :=
  if hasSchema st t.schema then ([], .ok st) else create_schema eng st t.schema

/-- The table block of the loop body of `create_tables`: skip silently when
`has_table` reports the table present; otherwise call `table.create()` and
re-raise every failure, `ProgrammingError` included. -/
def createTableStep (eng : Engine) (st : DBState) (t : Table) :
    List DBCall × Except PyError DBState :=
  if hasTable st t.schema t.name then ([], .ok st)
  else
    match eng.createTableResult t.schema t.name st with
    | .ok =>
      ([.createTable t.schema t.name],
        .ok { st with tables := (t.schema, t.name) :: st.tables })
    | .programmingError msg =>
      ([.createTable t.schema t.name], .error (.dbProgrammingError msg))
    | .otherError msg =>
      ([.createTable t.schema t.name], .error (.dbOtherError msg))

/-- Sequencing of provisioning steps: accumulate issued statements and stop
at the first exception. -/
def andThen (r : List DBCall × Except PyError DBState)
    (f : DBState → List DBCall × Except PyError DBState) :
    List DBCall × Except PyError DBState :=
  match r with
  | (calls, .error e) => (calls, .error e)
  | (calls, .ok st) =>
    match f st with
    | (calls2, r2) => (calls ++ calls2, r2)

/-- One iteration of the loop of `create_tables`: extension block, schema
block, table block, in the source's order. -/
def provisionTable (eng : Engine) (st : DBState) (t : Table) :
    List DBCall × Except PyError DBState :=
  andThen (ensureExtension eng st t) (fun st1 =>
    andThen (ensureSchema eng st1 t) (fun st2 => createTableStep eng st2 t))

/-- The embedding of `create_tables`: the tables are consumed strictly in
order and the first exception aborts the run. -/
def create_tables (eng : Engine) (st : DBState) :
    List Table → List DBCall × Except PyError DBState
  | [] => ([], .ok st)
  | t :: rest =>
    andThen (provisionTable eng st t) (fun st1 => create_tables eng st1 rest)

/-- The compilation loop of `main`: every metadata file is compiled before
any database work, and the first compilation failure aborts the run. -/
def compileAll (types : TypeEnv) : List (String × MetadataDoc) → Except PyError (List Table)
  | [] => .ok []
  | (file, doc) :: rest =>
    match create_tables_from_metadata_file types file doc with
    | .error e => .error e
    | .ok ts =>
      match compileAll types rest with
      | .error e => .error e
      | .ok more => .ok (ts ++ more)

/-- The core of `main`: compile all documents, order the flattened table
list, then provision. A compilation failure aborts before a single database
statement is issued. -/
def runPipeline (types : TypeEnv) (eng : Engine) (st : DBState)
    (docs : List (String × MetadataDoc)) : List DBCall × Except PyError DBState :=
  match compileAll types docs with
  | .error e => ([], .error e)
  | .ok tables => create_tables eng st (order_tables_by_foreign_keys tables)

/-- A small instantiation of the type lookup table, standing in for the
`postgresql_types.TYPES` configuration data when theorems are evaluated on
concrete inputs. -/
def sampleTypes : TypeEnv :=
  [("string", ColType.other "VARCHAR"), ("integer", ColType.other "INT"),
   ("geometry", ColType.geometry)]

/-- An empty database catalog. -/
def dbEmpty : DBState :=
  { hasPostgis := false, schemas := [], tables := [] }

/-- An engine whose schema creation fails with a `ProgrammingError` whose
cause is a missing privilege, not an existing schema. -/
def engPermissionDenied : Engine :=
  { createExtensionResult := fun _ => .ok
    createSchemaResult := fun _ _ =>
      .programmingError "psycopg2.errors.InsufficientPrivilege permission denied for database"
    createTableResult := fun _ _ _ => .ok }

/-- An engine whose every statement fails with an exception that is not a
`ProgrammingError`, such as a dropped connection. -/
def engDisconnected : Engine :=
  { createExtensionResult := fun _ => .otherError "server closed the connection unexpectedly"
    createSchemaResult := fun _ _ => .otherError "server closed the connection unexpectedly"
    createTableResult := fun _ _ _ => .otherError "server closed the connection unexpectedly" }

/-- An engine whose every creation statement fails with the duplicate-object
family of `ProgrammingError`, as a database on which everything already
exists reports. -/
def engEverythingExists : Engine :=
  { createExtensionResult := fun _ =>
      .programmingError "(psycopg2.errors.DuplicateObject) extension postgis already exists"
    createSchemaResult := fun _ _ =>
      .programmingError "(psycopg2.errors.DuplicateSchema) schema already exists"
    createTableResult := fun _ _ _ =>
      .programmingError "(psycopg2.errors.DuplicateTable) relation already exists" }

/-- A plain integer column without a foreign key. -/
def plainColumn (n : String) : Column :=
  { name := n, type := ColType.other "INT", foreignKeyRef := none,
    isPrimaryKey := false, comment := none }

/-- An integer column referencing another table's column. -/
def fkColumn (n target : String) : Column :=
  { name := n, type := ColType.other "INT", foreignKeyRef := some target,
    isPrimaryKey := false, comment := none }

/-- A geometry column, forcing the POSTGIS extension check. -/
def geoColumn : Column :=
  { name := "geom", type := ColType.geometry, foreignKeyRef := none,
    isPrimaryKey := false, comment := none }

/-- Table with zero foreign-key columns. -/
def tableT1 : Table :=
  { schema := "public", name := "t1", columns := [plainColumn "id"] }

/-- Table with two foreign-key columns. -/
def tableT2 : Table :=
  { schema := "public", name := "t2",
    columns := [fkColumn "a" "t1.id", fkColumn "b" "t3.id"] }

/-- Table with one foreign-key column. -/
def tableT3 : Table :=
  { schema := "public", name := "t3",
    columns := [fkColumn "a" "t1.id", plainColumn "x"] }

/-- A table containing a geometry column. -/
def tableGeo : Table :=
  { schema := "public", name := "places", columns := [geoColumn] }

/-- A catalog in which `tableGeo` and its schema already exist. -/
def stGeoExists : DBState :=
  { hasPostgis := true, schemas := ["public"], tables := [("public", "places")] }

/-- A catalog in which `tableT1` and its schema already exist. -/
def stT1Exists : DBState :=
  { hasPostgis := false, schemas := ["public"], tables := [("public", "t1")] }

/-- A field with a known type and a string description. -/
def fieldId : FieldSpec :=
  { name := "id", type := "integer", description := some (some "identifier") }

/-- A field whose description key is entirely absent. -/
def fieldNoDescription : FieldSpec :=
  { name := "id", type := "integer", description := none }

/-- A field with a null description. -/
def fieldNullDescription : FieldSpec :=
  { name := "id", type := "integer", description := some none }

/-- A field whose declared type is not in the lookup table. -/
def fieldBadType : FieldSpec :=
  { name := "payload", type := "blob", description := some none }

/-- A field acting as a foreign-key source. -/
def fieldRef : FieldSpec :=
  { name := "ref_id", type := "integer", description := some none }

/-- A foreign-key entry mapping `ref_id` to `model_draft.target.id`. -/
def fkSpecSample : ForeignKeySpec :=
  { fields := ["ref_id"],
    reference := { resource := "model_draft.target", fields := ["id"] } }

/-- A resource whose name has three dot-separated segments. -/
def resourceBadName : ResourceSpec :=
  { name := "a.b.c", fields := some [], primaryKey := some [],
    foreignKeys := some [] }

/-- A resource containing a field with an unknown type. -/
def resourceBadType : ResourceSpec :=
  { name := "demo", fields := some [fieldBadType], primaryKey := some [],
    foreignKeys := some [] }

/-- A document containing `resourceBadType`. -/
def docBadType : MetadataDoc :=
  { resources := some [resourceBadType] }

/-- A well-formed resource except that `schema.foreignKeys` is absent. -/
def resourceNoFk : ResourceSpec :=
  { name := "demo", fields := some [fieldId], primaryKey := some ["id"],
    foreignKeys := none }

/-- A resource with fields but no `schema.primaryKey`. -/
def resourceNoPk : ResourceSpec :=
  { name := "demo", fields := some [fieldId], primaryKey := none,
    foreignKeys := some [] }

/-- Stability of the dependency orderer: the tables with any fixed
foreign-key count appear in the output exactly as they appear in the
input. -/
theorem order_filter_stable (tables : List Table) (k : Nat) :
    (order_tables_by_foreign_keys tables).filter (fun t => decide (foreignKeyCount t = k))
      = tables.filter (fun t => decide (foreignKeyCount t = k)) := by
  unfold order_tables_by_foreign_keys
  set p : Table → Bool := fun t => decide (foreignKeyCount t = k) with hp
  have hmem : ∀ a ∈ tables.filter p, foreignKeyCount a = k := by
    intro a ha
    have h := List.of_mem_filter ha
    simpa [hp] using h
  have hc : (tables.filter p).Pairwise tableLE := by
    refine List.pairwise_of_forall_mem_list ?_
    intro a ha b hb
    unfold tableLE
    rw [hmem a ha, hmem b hb]
  have hsub : (tables.filter p).Sublist (tables.insertionSort tableLE) :=
    List.sublist_insertionSort hc (List.filter_sublist tables)
  have hself : (tables.filter p).filter p = tables.filter p :=
    List.filter_eq_self.mpr (fun a ha => List.of_mem_filter ha)
  have hsub2 : (tables.filter p).Sublist ((tables.insertionSort tableLE).filter p) := by
    have h2 := List.Sublist.filter p hsub
    rwa [hself] at h2
  have hlen : ((tables.insertionSort tableLE).filter p).length = (tables.filter p).length :=
    (List.Perm.filter p (List.perm_insertionSort tableLE tables)).length_eq
  exact (List.Sublist.eq_of_length hsub2 hlen.symm).symm

/-- C2: the dependency orderer returns a permutation of its input sorted by
ascending foreign-key count, the sort is stable (tables of equal foreign-key
count keep their relative input order), and on the concrete input of tables
with zero, two and one foreign keys it returns the zero-one-two ordering. -/
theorem claim_C2 (tables : List Table) :
    (order_tables_by_foreign_keys tables).Perm tables
    ∧ (order_tables_by_foreign_keys tables).Pairwise tableLE
    ∧ (∀ k : Nat,
        (order_tables_by_foreign_keys tables).filter (fun t => decide (foreignKeyCount t = k))
          = tables.filter (fun t => decide (foreignKeyCount t = k)))
    ∧ order_tables_by_foreign_keys [tableT1, tableT2, tableT3] = [tableT1, tableT3, tableT2] := by
  refine ⟨?_, ?_, fun k => order_filter_stable tables k, ?_⟩
  · exact List.perm_insertionSort tableLE tables
  · exact List.sorted_insertionSort tableLE tables
  · decide

/--
C1 counterexample: the claim says every schema-creation failure whose cause
is not "schema already exists" propagates to the caller. On this concrete
engine the creation of schema `demo` fails with a `ProgrammingError` whose
cause is a missing privilege, yet `create_schema` swallows it and returns
success with the catalog unchanged, because the source's `except` clause
catches every `ProgrammingError` without inspecting its cause.
-/
theorem claim_C1_counterexample :
    create_schema engPermissionDenied dbEmpty "demo"
      = ([DBCall.createSchema "demo"], Except.ok dbEmpty) := rfl

/-- C1 as amended: a schema-creation failure raised as a `ProgrammingError`
is swallowed whatever its cause, "schema already exists" included, and the
run continues as a no-op; only a failure that is not a `ProgrammingError`
propagates to the caller. -/
theorem claim_C1 (eng : Engine) (st : DBState) (schema msg : String) :
    (eng.createSchemaResult schema st = ExecResult.programmingError msg →
      create_schema eng st schema = ([DBCall.createSchema schema], Except.ok st))
    ∧ (eng.createSchemaResult schema st = ExecResult.otherError msg →
      create_schema eng st schema
        = ([DBCall.createSchema schema], Except.error (PyError.dbOtherError msg))) := by
  constructor <;> intro h <;> simp [create_schema, h]

/-- C1 witness: the amended statement evaluated on the concrete engines, one
failing schema creation with a `ProgrammingError` and one with a dropped
connection. -/
theorem claim_C1_witness :
    create_schema engPermissionDenied dbEmpty "demo"
      = ([DBCall.createSchema "demo"], Except.ok dbEmpty)
    ∧ create_schema engDisconnected dbEmpty "demo"
      = ([DBCall.createSchema "demo"],
          Except.error (PyError.dbOtherError "server closed the connection unexpectedly")) :=
  ⟨(claim_C1 engPermissionDenied dbEmpty "demo"
      "psycopg2.errors.InsufficientPrivilege permission denied for database").1 rfl,
   (claim_C1 engDisconnected dbEmpty "demo"
      "server closed the connection unexpectedly").2 rfl⟩

/-- C5: splitting a resource name on dots yields schema `public` for one
segment, the pair for two segments, and `MetadataError` naming the malformed
resource for any other count, and resource compilation fails with exactly
that error. -/
theorem claim_C5 (types : TypeEnv) (docFile : String) (name : String) :
    (∀ t, splitDot name = [t] → parseSchemaTable name = Except.ok ("public", t))
    ∧ (∀ s t, splitDot name = [s, t] → parseSchemaTable name = Except.ok (s, t))
    ∧ ((splitDot name).length ≠ 1 → (splitDot name).length ≠ 2 →
        parseSchemaTable name = Except.error (PyError.metadataBadName name))
    ∧ (∀ r : ResourceSpec, r.name = name →
        (splitDot name).length ≠ 1 → (splitDot name).length ≠ 2 →
        compileResource types docFile r = Except.error (PyError.metadataBadName name)) := by
  have hbad : (splitDot name).length ≠ 1 → (splitDot name).length ≠ 2 →
      parseSchemaTable name = Except.error (PyError.metadataBadName name) := by
    intro h1 h2
    rcases hs : splitDot name with _ | ⟨a, _ | ⟨b, _ | ⟨c, rest⟩⟩⟩
    · simp [parseSchemaTable, hs]
    · exact absurd (show (splitDot name).length = 1 by simp [hs]) h1
    · exact absurd (show (splitDot name).length = 2 by simp [hs]) h2
    · simp [parseSchemaTable, hs]
  refine ⟨?_, ?_, hbad, ?_⟩
  · intro t h
    simp [parseSchemaTable, h]
  · intro s t h
    simp [parseSchemaTable, h]
  · intro r hr h1 h2
    have hp := hbad h1 h2
    unfold compileResource
    rw [hr, hp]

/-- C5 witness: the three name shapes on concrete names, and a resource
with a three-segment name failing compilation. -/
theorem claim_C5_witness :
    parseSchemaTable "demo" = Except.ok ("public", "demo")
    ∧ parseSchemaTable "model_draft.demo" = Except.ok ("model_draft", "demo")
    ∧ parseSchemaTable "a.b.c" = Except.error (PyError.metadataBadName "a.b.c")
    ∧ compileResource sampleTypes "demo.json" resourceBadName
        = Except.error (PyError.metadataBadName "a.b.c") :=
  ⟨(claim_C5 sampleTypes "demo.json" "demo").1 "demo" (by decide),
   (claim_C5 sampleTypes "demo.json" "model_draft.demo").2.1 "model_draft" "demo" (by decide),
   (claim_C5 sampleTypes "demo.json" "a.b.c").2.2.1 (by decide) (by decide),
   (claim_C5 sampleTypes "demo.json" "a.b.c").2.2.2 resourceBadName rfl (by decide) (by decide)⟩

/-- Shape of a successful field compilation: the column's name and type come
from the field and the lookup table, the primary-key flag is the membership
test, the comment is the present description value, and the foreign-key
reference is the rendered target exactly when the field is in the
foreign-key mapping. -/
theorem compileField_ok_parts (types : TypeEnv) (docFile : String)
    (pksOpt : Option (List String)) (m : List (String × Reference))
    (f : FieldSpec) (col : Column)
    (hc : compileField types docFile pksOpt m f = Except.ok col) :
    (∃ ty, lookupType types f.type = some ty ∧ col.type = ty ∧ col.name = f.name)
    ∧ (∃ pks, pksOpt = some pks ∧ col.isPrimaryKey = decide (f.name ∈ pks))
    ∧ (∃ d, f.description = some d ∧ col.comment = d)
    ∧ (∀ ref, dictGet m f.name = some ref →
        ∃ rf rl, ref.fields = rf :: rl
          ∧ col.foreignKeyRef = some (ref.resource ++ "." ++ rf))
    ∧ (dictGet m f.name = none → col.foreignKeyRef = none) := by
  cases hty : lookupType types f.type with
  | none => simp [compileField, hty] at hc
  | some ty =>
    cases hfk : dictGet m f.name with
    | some ref =>
      cases hrf : ref.fields with
      | nil => simp [compileField, hty, hfk, hrf] at hc
      | cons rf rl =>
        cases hpks : pksOpt with
        | none => simp [compileField, hty, hfk, hrf, hpks] at hc
        | some pks =>
          cases hd : f.description with
          | none => simp [compileField, hty, hfk, hrf, hpks, hd] at hc
          | some d =>
            simp only [compileField, hty, hfk, hrf, hpks, hd, Except.ok.injEq] at hc
            subst hc
            refine ⟨⟨ty, rfl, rfl, rfl⟩, ⟨pks, rfl, rfl⟩, ⟨d, rfl, rfl⟩, ?_, ?_⟩
            · intro ref' href
              injection href with he
              subst he
              exact ⟨rf, rl, hrf, rfl⟩
            · intro hnone
              exact Option.noConfusion hnone
    | none =>
      cases hpks : pksOpt with
      | none => simp [compileField, hty, hfk, hpks] at hc
      | some pks =>
        cases hd : f.description with
        | none => simp [compileField, hty, hfk, hpks, hd] at hc
        | some d =>
          simp only [compileField, hty, hfk, hpks, hd, Except.ok.injEq] at hc
          subst hc
          refine ⟨⟨ty, rfl, rfl, rfl⟩, ⟨pks, rfl, rfl⟩, ⟨d, rfl, rfl⟩, ?_, ?_⟩
          · intro ref' href
            exact Option.noConfusion href
          · intro _
            rfl

/-- C9: whenever a field compiles, the column's primary-key flag is true
exactly when the field's name is a member of the resource's primaryKey
list. -/
theorem claim_C9 (types : TypeEnv) (docFile : String) (pks : List String)
    (m : List (String × Reference)) (f : FieldSpec) (col : Column)
    (hc : compileField types docFile (some pks) m f = Except.ok col) :
    col.isPrimaryKey = true ↔ f.name ∈ pks := by
  obtain ⟨-, ⟨pks', hp, hpk⟩, -, -, -⟩ := compileField_ok_parts types docFile (some pks) m f col hc
  injection hp with hp'
  subst hp'
  rw [hpk]
  exact decide_eq_true_iff

/-- C9 witness: the concrete field `id` compiled against the primary-key
list containing `id` carries a true primary-key flag. -/
theorem claim_C9_witness :
    ({ name := "id", type := ColType.other "INT", foreignKeyRef := none,
       isPrimaryKey := true, comment := some "identifier" : Column }.isPrimaryKey = true
      ↔ "id" ∈ ["id"]) :=
  claim_C9 sampleTypes "demo.json" ["id"] [] fieldId
    { name := "id", type := ColType.other "INT", foreignKeyRef := none,
      isPrimaryKey := true, comment := some "identifier" } rfl

/--
C4 counterexample: the claim says compiling a field whose description is
absent succeeds with no comment attached. On the concrete field whose
`description` key is missing, compilation instead fails, because the source
accesses `field["description"]` unconditionally and the access raises
`KeyError`.
-/
theorem claim_C4_counterexample :
    compileField sampleTypes "demo.json" (some []) [] fieldNoDescription
      = Except.error (PyError.keyError "description") := rfl

/-- C4 as amended: when a field compiles, the column comment is exactly the
field's description value (a null description yields no comment); a field
whose description key is entirely absent never compiles, and when the field
is otherwise compilable the failure is `KeyError "description"`. -/
theorem claim_C4 (types : TypeEnv) (docFile : String) (pksOpt : Option (List String))
    (m : List (String × Reference)) (f : FieldSpec) :
    (∀ col d, f.description = some d →
      compileField types docFile pksOpt m f = Except.ok col → col.comment = d)
    ∧ (f.description = none → ∀ col,
      compileField types docFile pksOpt m f ≠ Except.ok col)
    ∧ (∀ ty pks, f.description = none → lookupType types f.type = some ty →
      dictGet m f.name = none →
      compileField types docFile (some pks) m f
        = Except.error (PyError.keyError "description")) := by
  refine ⟨?_, ?_, ?_⟩
  · intro col d hd hc
    obtain ⟨-, -, ⟨d', hd', hcom⟩, -, -⟩ := compileField_ok_parts types docFile pksOpt m f col hc
    rw [hd] at hd'
    injection hd' with he
    subst he
    exact hcom
  · intro hd col hc
    obtain ⟨-, -, ⟨d', hd', -⟩, -, -⟩ := compileField_ok_parts types docFile pksOpt m f col hc
    rw [hd] at hd'
    exact Option.noConfusion hd'
  · intro ty pks hd hty hfk
    unfold compileField
    rw [hty, hfk, hd]

/-- C4 witness: a null description compiles to a column with no comment, a
missing description key never compiles and raises `KeyError`. -/
theorem claim_C4_witness :
    ({ name := "id", type := ColType.other "INT", foreignKeyRef := none,
       isPrimaryKey := false, comment := none : Column }.comment = (none : Option String))
    ∧ compileField sampleTypes "demo.json" (some []) [] fieldNoDescription
        ≠ Except.ok (plainColumn "id")
    ∧ compileField sampleTypes "demo.json" (some []) [] fieldNoDescription
        = Except.error (PyError.keyError "description") :=
  ⟨(claim_C4 sampleTypes "demo.json" (some []) [] fieldNullDescription).1
      { name := "id", type := ColType.other "INT", foreignKeyRef := none,
        isPrimaryKey := false, comment := none } none rfl rfl,
   (claim_C4 sampleTypes "demo.json" (some []) [] fieldNoDescription).2.1 rfl (plainColumn "id"),
   (claim_C4 sampleTypes "demo.json" (some []) [] fieldNoDescription).2.2
      (ColType.other "INT") [] rfl rfl rfl⟩

/-- Compiling a field list fails with the unknown-type `MetadataError` of
the first field whose declared type is missing from the lookup table, once
every earlier field compiles. -/
theorem compileFields_unknownType (types : TypeEnv) (docFile : String)
    (pksOpt : Option (List String)) (m : List (String × Reference))
    (pre : List FieldSpec) (f : FieldSpec) (rest : List FieldSpec)
    (hok : ∀ g ∈ pre, ∃ c, compileField types docFile pksOpt m g = Except.ok c)
    (hbad : lookupType types f.type = none) :
    compileFields types docFile pksOpt m (pre ++ f :: rest)
      = Except.error (PyError.metadataUnknownType f f.type docFile) := by
  induction pre with
  | nil =>
    simp only [List.nil_append]
    unfold compileFields compileField
    rw [hbad]
  | cons g pre ih =>
    obtain ⟨c, hcg⟩ := hok g (List.mem_cons_self g pre)
    simp only [List.cons_append]
    unfold compileFields
    rw [hcg, ih (fun g' hg' => hok g' (List.mem_cons_of_mem g hg'))]

/-- C3: a field whose declared type is absent from the lookup table makes
compilation fail with the unknown-type `MetadataError` carrying the field,
the type name and the source document, and any compilation failure aborts
the run before a single database statement is issued. -/
theorem claim_C3 (types : TypeEnv) (docFile : String)
    (pksOpt : Option (List String)) (m : List (String × Reference))
    (pre : List FieldSpec) (f : FieldSpec) (rest : List FieldSpec)
    (eng : Engine) (st : DBState) (docs : List (String × MetadataDoc)) (e : PyError) :
    ((∀ g ∈ pre, ∃ c, compileField types docFile pksOpt m g = Except.ok c) →
      lookupType types f.type = none →
      compileFields types docFile pksOpt m (pre ++ f :: rest)
        = Except.error (PyError.metadataUnknownType f f.type docFile))
    ∧ (compileAll types docs = Except.error e →
      runPipeline types eng st docs = ([], Except.error e)) := by
  constructor
  · intro h1 h2
    exact compileFields_unknownType types docFile pksOpt m pre f rest h1 h2
  · intro h
    unfold runPipeline
    rw [h]

/-- C3 witness: the concrete field of type `blob` fails with the
unknown-type error carrying the field, the type name and the document, and
the pipeline on a document containing it issues no database statement. -/
theorem claim_C3_witness :
    compileFields sampleTypes "demo.json" (some []) [] [fieldBadType]
      = Except.error (PyError.metadataUnknownType fieldBadType "blob" "demo.json")
    ∧ runPipeline sampleTypes engEverythingExists dbEmpty [("demo.json", docBadType)]
      = ([], Except.error (PyError.metadataUnknownType fieldBadType "blob" "demo.json")) :=
  ⟨(claim_C3 sampleTypes "demo.json" (some []) [] [] fieldBadType [] engEverythingExists
      dbEmpty [] (PyError.metadataUnknownType fieldBadType "blob" "demo.json")).1
      (fun g hg => absurd hg (List.not_mem_nil g)) rfl,
   (claim_C3 sampleTypes "demo.json" (some []) [] [] fieldBadType [] engEverythingExists
      dbEmpty [("demo.json", docBadType)]
      (PyError.metadataUnknownType fieldBadType "blob" "demo.json")).2 rfl⟩

/-- Relating a built foreign-key dict to its source entries: a successful
lookup returns the reference of some entry whose first source field is the
key, and a failed lookup means no entry names the key. -/
theorem dictGet_buildForeignKeyMap (fkList : List ForeignKeySpec)
    (m : List (String × Reference)) (nm : String)
    (h : buildForeignKeyMap fkList = Except.ok m) :
    (∀ ref, dictGet m nm = some ref →
      ∃ fk, fk ∈ fkList ∧ fk.fields.head? = some nm ∧ fk.reference = ref)
    ∧ (dictGet m nm = none → ∀ fk, fk ∈ fkList → fk.fields.head? ≠ some nm) := by
  induction fkList generalizing m with
  | nil =>
    simp only [buildForeignKeyMap, Except.ok.injEq] at h
    subst h
    constructor
    · intro ref hget
      exact Option.noConfusion hget
    · intro _ fk hmem
      exact absurd hmem (List.not_mem_nil fk)
  | cons fk rest ih =>
    cases hf : fk.fields with
    | nil => simp [buildForeignKeyMap, hf] at h
    | cons key tl =>
      cases hr : buildForeignKeyMap rest with
      | error e => simp [buildForeignKeyMap, hf, hr] at h
      | ok m' =>
        simp only [buildForeignKeyMap, hf, hr, Except.ok.injEq] at h
        subst h
        obtain ⟨ih1, ih2⟩ := ih m' hr
        constructor
        · intro ref hget
          simp only [dictGet] at hget
          cases hg : dictGet m' nm with
          | some r =>
            rw [hg] at hget
            injection hget with he
            subst he
            obtain ⟨fk', hmem, hhd, hrf⟩ := ih1 r hg
            exact ⟨fk', List.mem_cons_of_mem fk hmem, hhd, hrf⟩
          | none =>
            rw [hg] at hget
            by_cases hk : key = nm
            · rw [if_pos hk] at hget
              injection hget with he
              exact ⟨fk, List.mem_cons_self fk rest, by simp [hf, hk], he⟩
            · rw [if_neg hk] at hget
              exact Option.noConfusion hget
        · intro hget fk' hmem
          simp only [dictGet] at hget
          cases hg : dictGet m' nm with
          | some r =>
            rw [hg] at hget
            exact Option.noConfusion hget
          | none =>
            rw [hg] at hget
            by_cases hk : key = nm
            · rw [if_pos hk] at hget
              exact Option.noConfusion hget
            · rcases List.mem_cons.mp hmem with he | hmem'
              · subst he
                intro hcon
                rw [hf] at hcon
                injection hcon with hkey
                exact hk hkey
              · exact ih2 hg fk' hmem'

/-- C8: whenever a field compiles against a successfully built foreign-key
dict, a field named as a foreign-key source yields a column carrying the
reference rendered as target resource, dot, first target field, and any
other field yields a column with no foreign-key reference. -/
theorem claim_C8 (types : TypeEnv) (docFile : String) (pksOpt : Option (List String))
    (fkList : List ForeignKeySpec) (m : List (String × Reference))
    (f : FieldSpec) (col : Column)
    (hm : buildForeignKeyMap fkList = Except.ok m)
    (hc : compileField types docFile pksOpt m f = Except.ok col) :
    ((∃ fk, fk ∈ fkList ∧ fk.fields.head? = some f.name) →
      ∃ fk, fk ∈ fkList ∧ fk.fields.head? = some f.name
        ∧ ∃ rf rl, fk.reference.fields = rf :: rl
          ∧ col.foreignKeyRef = some (fk.reference.resource ++ "." ++ rf))
    ∧ ((∀ fk, fk ∈ fkList → fk.fields.head? ≠ some f.name) →
      col.foreignKeyRef = none) := by
  obtain ⟨-, -, -, h4, h5⟩ := compileField_ok_parts types docFile pksOpt m f col hc
  obtain ⟨hs, hn⟩ := dictGet_buildForeignKeyMap fkList m f.name hm
  constructor
  · intro hex
    cases hg : dictGet m f.name with
    | some ref =>
      obtain ⟨fk', hmem, hhd, hrf⟩ := hs ref hg
      obtain ⟨rf, rl, hflds, hcol⟩ := h4 ref hg
      exact ⟨fk', hmem, hhd, rf, rl, by rw [hrf]; exact hflds, by rw [hrf]; exact hcol⟩
    | none =>
      obtain ⟨fk', hmem, hhd⟩ := hex
      exact absurd hhd (hn hg fk' hmem)
  · intro hall
    cases hg : dictGet m f.name with
    | some ref =>
      obtain ⟨fk', hmem, hhd, -⟩ := hs ref hg
      exact absurd hhd (hall fk' hmem)
    | none => exact h5 hg

/-- C8 witness: the concrete field `ref_id`, named as a source in the
concrete foreign-key list, compiles to a column referencing
`model_draft.target.id`. -/
theorem claim_C8_witness :
    ∃ fk, fk ∈ [fkSpecSample] ∧ fk.fields.head? = some "ref_id"
      ∧ ∃ rf rl, fk.reference.fields = rf :: rl
        ∧ ({ name := "ref_id", type := ColType.other "INT",
             foreignKeyRef := some "model_draft.target.id",
             isPrimaryKey := false, comment := none : Column }).foreignKeyRef
          = some (fk.reference.resource ++ "." ++ rf) :=
  (claim_C8 sampleTypes "demo.json" (some []) [fkSpecSample]
      [("ref_id", { resource := "model_draft.target", fields := ["id"] })] fieldRef
      { name := "ref_id", type := ColType.other "INT",
        foreignKeyRef := some "model_draft.target.id",
        isPrimaryKey := false, comment := none }
      rfl rfl).1
    ⟨fkSpecSample, List.mem_cons_self fkSpecSample [], rfl⟩

/-- C10: a resource with a well-formed name but no `schema.foreignKeys`
crashes compilation with the `TypeError` of iterating None, and a resource
with fields but no `schema.primaryKey` crashes with the `TypeError` of
membership-testing None once its first field's type resolves; neither case
succeeds or raises a `MetadataError`. -/
theorem claim_C10 (types : TypeEnv) (docFile : String) (r : ResourceSpec)
    (p : String × String) (fkList : List ForeignKeySpec) (m : List (String × Reference))
    (f : FieldSpec) (rest : List FieldSpec) (ty : ColType) :
    (parseSchemaTable r.name = Except.ok p → r.foreignKeys = none →
      compileResource types docFile r = Except.error PyError.typeErrorIterNone)
    ∧ (parseSchemaTable r.name = Except.ok p →
      r.foreignKeys = some fkList → buildForeignKeyMap fkList = Except.ok m →
      r.primaryKey = none → r.fields = some (f :: rest) →
      lookupType types f.type = some ty →
      (∀ ref, dictGet m f.name = some ref → ref.fields ≠ []) →
      compileResource types docFile r = Except.error PyError.typeErrorArgNone) := by
  constructor
  · intro h1 h2
    obtain ⟨s, t⟩ := p
    simp [compileResource, h1, h2]
  · intro h1 h2 h3 h4 h5 h6 h7
    obtain ⟨s, t⟩ := p
    cases hg : dictGet m f.name with
    | some ref =>
      cases hrf : ref.fields with
      | nil => exact absurd hrf (h7 ref hg)
      | cons rf rl =>
        simp [compileResource, h1, h2, h3, h5, compileFields, compileField, h6, hg, hrf, h4]
    | none =>
      simp [compileResource, h1, h2, h3, h5, compileFields, compileField, h6, hg, h4]

/-- C10 witness: the concrete resource lacking `schema.foreignKeys` and the
concrete resource with a field but no `schema.primaryKey` both crash with
the respective `TypeError`. -/
theorem claim_C10_witness :
    compileResource sampleTypes "demo.json" resourceNoFk
      = Except.error PyError.typeErrorIterNone
    ∧ compileResource sampleTypes "demo.json" resourceNoPk
      = Except.error PyError.typeErrorArgNone :=
  ⟨(claim_C10 sampleTypes "demo.json" resourceNoFk ("public", "demo") [] [] fieldId []
      (ColType.other "INT")).1 rfl rfl,
   (claim_C10 sampleTypes "demo.json" resourceNoPk ("public", "demo") [] [] fieldId []
      (ColType.other "INT")).2 rfl rfl rfl rfl rfl rfl
      (fun _ h => Option.noConfusion h)⟩

/-- C6: a table whose schema-qualified name already exists is skipped
silently by the table block (and by the whole loop body when no geometry or
schema work arises), and a table-creation call that does fail propagates its
`ProgrammingError` whatever the message, "already exists" included. -/
theorem claim_C6 (eng : Engine) (st : DBState) (t : Table) (msg : String) :
    (hasGeometryColumn t = false → hasSchema st t.schema = true →
      hasTable st t.schema t.name = true →
      create_tables eng st [t] = ([], Except.ok st))
    ∧ (hasTable st t.schema t.name = true →
      createTableStep eng st t = ([], Except.ok st))
    ∧ (hasTable st t.schema t.name = false →
      eng.createTableResult t.schema t.name st = ExecResult.programmingError msg →
      createTableStep eng st t
        = ([DBCall.createTable t.schema t.name],
            Except.error (PyError.dbProgrammingError msg))) := by
  refine ⟨?_, ?_, ?_⟩
  · intro h1 h2 h3
    simp [create_tables, provisionTable, ensureExtension, ensureSchema, createTableStep,
      andThen, h1, h2, h3]
  · intro h
    simp [createTableStep, h]
  · intro h1 h2
    simp [createTableStep, h1, h2]

/-- C6 witness: against the engine on which every creation statement reports
already-exists, the existing concrete table is skipped with no call and no
error, and the same table in an empty catalog fails with the propagated
duplicate-table `ProgrammingError`. -/
theorem claim_C6_witness :
    create_tables engEverythingExists stT1Exists [tableT1] = ([], Except.ok stT1Exists)
    ∧ createTableStep engEverythingExists stT1Exists tableT1 = ([], Except.ok stT1Exists)
    ∧ createTableStep engEverythingExists dbEmpty tableT1
      = ([DBCall.createTable "public" "t1"],
          Except.error (PyError.dbProgrammingError
            "(psycopg2.errors.DuplicateTable) relation already exists")) :=
  ⟨(claim_C6 engEverythingExists stT1Exists tableT1 "x").1 rfl rfl rfl,
   (claim_C6 engEverythingExists stT1Exists tableT1 "x").2.1 rfl,
   (claim_C6 engEverythingExists dbEmpty tableT1
      "(psycopg2.errors.DuplicateTable) relation already exists").2.2 rfl rfl⟩

/-- Sequencing after a successful prefix appends the calls of the
continuation. -/
theorem andThen_ok (calls : List DBCall) (st : DBState)
    (f : DBState → List DBCall × Except PyError DBState) :
    andThen (calls, Except.ok st) f = (calls ++ (f st).1, (f st).2) := rfl

/-- Provisioning one table that already exists, in a catalog that already
has its schema, issues at most the extension statement and leaves the
catalog's schema and table lists unchanged. -/
theorem provisionTable_exists (eng : Engine) (st : DBState) (t : Table)
    (hext : eng.createExtensionResult st = ExecResult.ok
      ∨ ∃ msg, eng.createExtensionResult st = ExecResult.programmingError msg
          ∧ containsSubstr msg "psycopg2.errors.DuplicateObject" = true)
    (hs : hasSchema st t.schema = true) (ht : hasTable st t.schema t.name = true) :
    ∃ st', provisionTable eng st t
        = ((if hasGeometryColumn t then [DBCall.createExtension] else []), Except.ok st')
      ∧ st'.schemas = st.schemas ∧ st'.tables = st.tables := by
  have hs' : t.schema ∈ st.schemas := by
    have h := hs
    unfold hasSchema at h
    simpa using h
  have ht' : (t.schema, t.name) ∈ st.tables := by
    have h := ht
    unfold hasTable at h
    simpa using h
  by_cases hg : hasGeometryColumn t
  · rcases hext with hok | ⟨msg, hmsg, hdup⟩
    · refine ⟨{ st with hasPostgis := true }, ?_, rfl, rfl⟩
      simp [provisionTable, ensureExtension, ensureSchema, createTableStep, andThen,
        hasSchema, hasTable, hg, hok, hs', ht']
    · refine ⟨st, ?_, rfl, rfl⟩
      simp [provisionTable, ensureExtension, ensureSchema, createTableStep, andThen,
        hasSchema, hasTable, hg, hmsg, hdup, hs', ht']
  · refine ⟨st, ?_, rfl, rfl⟩
    simp [provisionTable, ensureExtension, ensureSchema, createTableStep, andThen,
      hasSchema, hasTable, hg, hs', ht']

/-- Provisioning a list of tables that all already exist, with their schemas
present, issues only extension statements, none at all when no table has a
geometry column, raises no error, and preserves the catalog's schema and
table lists. -/
theorem create_tables_all_exist (eng : Engine)
    (hext : ∀ st' : DBState, eng.createExtensionResult st' = ExecResult.ok
      ∨ ∃ msg, eng.createExtensionResult st' = ExecResult.programmingError msg
          ∧ containsSubstr msg "psycopg2.errors.DuplicateObject" = true) :
    ∀ (tables : List Table) (st : DBState),
    (∀ t ∈ tables, hasSchema st t.schema = true) →
    (∀ t ∈ tables, hasTable st t.schema t.name = true) →
    (∀ c ∈ (create_tables eng st tables).1, c = DBCall.createExtension)
    ∧ ((∀ t ∈ tables, hasGeometryColumn t = false) → (create_tables eng st tables).1 = [])
    ∧ ∃ st', (create_tables eng st tables).2 = Except.ok st'
        ∧ st'.schemas = st.schemas ∧ st'.tables = st.tables := by
  intro tables
  induction tables with
  | nil =>
    intro st _ _
    exact ⟨fun c hc => absurd hc (List.not_mem_nil c), fun _ => rfl, st, rfl, rfl, rfl⟩
  | cons t rest ih =>
    intro st hsch htab
    obtain ⟨st1, hpt, hsch1, htab1⟩ := provisionTable_exists eng st t (hext st)
      (hsch t (List.mem_cons_self t rest)) (htab t (List.mem_cons_self t rest))
    have hsch' : ∀ u ∈ rest, hasSchema st1 u.schema = true := by
      intro u hu
      unfold hasSchema
      rw [hsch1]
      exact hsch u (List.mem_cons_of_mem t hu)
    have htab' : ∀ u ∈ rest, hasTable st1 u.schema u.name = true := by
      intro u hu
      unfold hasTable
      rw [htab1]
      exact htab u (List.mem_cons_of_mem t hu)
    obtain ⟨hcall, hnil, st2, hres, hs2, ht2⟩ := ih st1 hsch' htab'
    have heq : create_tables eng st (t :: rest)
        = ((if hasGeometryColumn t then [DBCall.createExtension] else [])
            ++ (create_tables eng st1 rest).1, (create_tables eng st1 rest).2) := by
      simp only [create_tables]
      rw [hpt, andThen_ok]
    have h1 : (create_tables eng st (t :: rest)).1
        = (if hasGeometryColumn t then [DBCall.createExtension] else [])
          ++ (create_tables eng st1 rest).1 := by rw [heq]
    have h2 : (create_tables eng st (t :: rest)).2 = (create_tables eng st1 rest).2 := by
      rw [heq]
    refine ⟨?_, ?_, st2, ?_, hs2.trans hsch1, ht2.trans htab1⟩
    · intro c hc
      rw [h1] at hc
      rcases List.mem_append.mp hc with h | h
      · by_cases hg : hasGeometryColumn t
        · rw [if_pos hg] at h
          exact List.mem_singleton.mp h
        · rw [if_neg hg] at h
          exact absurd h (List.not_mem_nil c)
      · exact hcall c h
    · intro hallg
      rw [h1, if_neg, hnil (fun u hu => hallg u (List.mem_cons_of_mem t hu))]
      · rfl
      · rw [hallg t (List.mem_cons_self t rest)]
        exact Bool.false_ne_true
    · rw [h2]
      exact hres

/--
C7 counterexample: the claim says that when every table already exists,
provisioning issues zero creation calls. With a single geometry table that
already exists, and POSTGIS present so the extension statement fails as a
duplicate and is swallowed, provisioning still issues one creation call,
the `CREATE EXTENSION` statement, because the source executes it for every
geometry table before the table-existence check.
-/
theorem claim_C7_counterexample :
    create_tables engEverythingExists stGeoExists [tableGeo]
      = ([DBCall.createExtension], Except.ok stGeoExists) := rfl

/-- C7 as amended: re-running provisioning when every table and its schema
already exist issues no schema- or table-creation statement and raises no
error, and issues no statement at all when no table has a geometry column;
for each table with a geometry column the extension statement is still
issued, its duplicate-object failure swallowed. -/
theorem claim_C7 (eng : Engine) (st : DBState) (tables : List Table)
    (hext : ∀ st' : DBState, eng.createExtensionResult st' = ExecResult.ok
      ∨ ∃ msg, eng.createExtensionResult st' = ExecResult.programmingError msg
          ∧ containsSubstr msg "psycopg2.errors.DuplicateObject" = true)
    (hsch : ∀ t ∈ tables, hasSchema st t.schema = true)
    (htab : ∀ t ∈ tables, hasTable st t.schema t.name = true) :
    (∀ c ∈ (create_tables eng st tables).1, c = DBCall.createExtension)
    ∧ ((∀ t ∈ tables, hasGeometryColumn t = false) → (create_tables eng st tables).1 = [])
    ∧ ∃ st', (create_tables eng st tables).2 = Except.ok st'
        ∧ st'.schemas = st.schemas ∧ st'.tables = st.tables :=
  create_tables_all_exist eng hext tables st hsch htab

/-- C7 witness: the amended statement evaluated on the concrete existing
table without geometry columns against the duplicate-reporting engine. -/
theorem claim_C7_witness :
    (∀ c ∈ (create_tables engEverythingExists stT1Exists [tableT1]).1,
      c = DBCall.createExtension)
    ∧ ((∀ t ∈ [tableT1], hasGeometryColumn t = false) →
      (create_tables engEverythingExists stT1Exists [tableT1]).1 = [])
    ∧ ∃ st', (create_tables engEverythingExists stT1Exists [tableT1]).2 = Except.ok st'
        ∧ st'.schemas = stT1Exists.schemas ∧ st'.tables = stT1Exists.tables :=
  claim_C7 engEverythingExists stT1Exists [tableT1]
    (fun _ => Or.inr ⟨"(psycopg2.errors.DuplicateObject) extension postgis already exists",
      rfl, rfl⟩)
    (by decide) (by decide)

end MdToOrm
